import Mathlib

/-!
Verification of `src/rumboost/post_process.py` (RUMBoost post-processing
utilities) via a shallow embedding in Lean 4.

The file embeds the three functions of the module:
  * `split_fe_model` — splits a functional-effect model into even/odd parts;
  * `bootstrap` — seeded resample-and-retrain loop over a labelled dataset;
  * `assist_model_spec` — placeholder-parameter builder with a no-op loop.

External libraries (numpy's random generator, lightgbm, `rum_train`,
`weights_to_plot_v2`, biogeme's `Beta`) are consumed as opaque interfaces,
exactly as the module uses them: they are modelled by parameters of the
embedding or by small records mirroring the fields the module touches.
-/

namespace Rumboost

/-- A Python value as far as `isinstance(x, list)` is concerned: the
`rum_structure` attribute may be a list (of structural descriptors drawn
from some type `ρ`), a mapping, or a scalar. -/
inductive PyVal (ρ : Type) where
  | list : List ρ → PyVal ρ
  | dict : List (String × ρ) → PyVal ρ
  | scalar : String → PyVal ρ
  deriving DecidableEq

/-- Whether `isinstance(x, list)` holds. -/
def PyVal.isList {ρ : Type} : PyVal ρ → Bool
  | .list _ => true
  | _ => false

/-- Modelled from the spec: the `RUMBoost` class itself lives in
`rumboost/rumboost.py`, which is not part of the given source fragment; the
spec describes a Trained Model as an aggregate of boosters, a structural
descriptor field, a class count, a device tag, a nesting structure and
scaling factors, and a fresh `RUMBoost()` as a bare shell with no field
populated.  Fields are `Option`s (`none` = not populated on the object) and
`extra` collects any further attributes a source model may carry beyond
these six.  Type parameters: `β` boosters, `ρ` structural descriptors,
`γ` nests, `δ` alphas. -/
structure RUMBoost (β ρ γ δ : Type) where
  boosters : Option (List β) := none
  rum_structure : Option (PyVal ρ) := none
  num_classes : Option Nat := none
  device : Option String := none
  nests : Option γ := none
  alphas : Option δ := none
  extra : List (String × String) := []
  deriving DecidableEq

/-- `[b for i, b in enumerate(l) if i % 2 == r]`: the elements of `l` whose
0-based position is congruent to `r` mod 2.  Python's slices `l[::2]` and
`l[1::2]` compute the same lists for `r = 0` and `r = 1`. -/
def idxMod2 {α : Type} (r : Nat) (l : List α) : List α :=
  (l.enum.filter (fun p => p.1 % 2 == r)).map (·.2)

/-- Embedding of `split_fe_model` (post_process.py, lines 10–52).
Raising `ValueError` is modelled by `Except.error` carrying the message;
the attribute reads `model.boosters` etc. return the stored field values
(the `getD []` default never fires in the theorems below: they assume the
booster field is populated, as it is on any trained model). -/
def split_fe_model {β ρ γ δ : Type} (model : RUMBoost β ρ γ δ) :
    Except String (RUMBoost β ρ γ δ × RUMBoost β ρ γ δ) :=
  match model.rum_structure with
  | some (PyVal.list rs) =>
      let bs := model.boosters.getD []
      let attributes_model : RUMBoost β ρ γ δ :=
        { boosters := some (idxMod2 0 bs)
          rum_structure := some (PyVal.list (idxMod2 0 rs))
          num_classes := model.num_classes
          device := model.device
          nests := model.nests
          alphas := model.alphas }
      let socio_economic_model : RUMBoost β ρ γ δ :=
        { boosters := some (idxMod2 1 bs)
          rum_structure := some (PyVal.list (idxMod2 1 rs))
          num_classes := model.num_classes
          device := model.device
          nests := model.nests
          alphas := model.alphas }
      .ok (attributes_model, socio_economic_model)
  | _ =>
      .error "Please add a rum_structure to your model by setting model.rum_structure. A rum_structure must be a list of 2*n_alt dictionaries in this function"

/-- `interleave [a0, a1, ...] [b0, b1, ...] = [a0, b0, a1, b1, ...]`. -/
def interleave {α : Type} : List α → List α → List α
  | [], ys => ys
  | x :: xs, ys => x :: interleave ys xs
termination_by xs ys => xs.length + ys.length
decreasing_by simp [Nat.lt_succ_iff]; omega

mutual

/-- Elements at even 0-based positions (recursive characterisation). -/
def evens {α : Type} : List α → List α
  | [] => []
  | x :: xs => x :: odds xs

/-- Elements at odd 0-based positions (recursive characterisation). -/
def odds {α : Type} : List α → List α
  | [] => []
  | _ :: xs => evens xs

end

/-- A store of `RUMBoost` objects, used to express Python's object
mutation explicitly: `objs` maps a reference (allocation index) to the
object it denotes, `next` is the next fresh reference.  Used by
`split_fe_model_st`, the state-passing embedding of `split_fe_model`. -/
structure Heap (β ρ γ δ : Type) where
  objs : Nat → Option (RUMBoost β ρ γ δ)
  next : Nat

/-- Allocate a new object (`RUMBoost()`), returning its reference. -/
def Heap.alloc {β ρ γ δ : Type} (h : Heap β ρ γ δ) (o : RUMBoost β ρ γ δ) :
    Nat × Heap β ρ γ δ :=
  (h.next, ⟨fun i => if i = h.next then some o else h.objs i, h.next + 1⟩)

/-- An attribute assignment `obj.field = v`: update the object behind
reference `r` in place. -/
def Heap.set {β ρ γ δ : Type} (h : Heap β ρ γ δ) (r : Nat)
    (f : RUMBoost β ρ γ δ → RUMBoost β ρ γ δ) : Heap β ρ γ δ :=
  ⟨fun i => if i = r then (h.objs r).map f else h.objs i, h.next⟩

/-- State-passing embedding of `split_fe_model` (post_process.py,
lines 10–52), statement by statement over an explicit object store:
two fresh objects are allocated (`RUMBoost()`, lines 33–34) and each of the
twelve attribute assignments (lines 36–50) mutates one of them; the source
object behind `pmodel` is only ever read.  Returns the references of the
two result objects (or the raised `ValueError`) together with the final
store. -/
def split_fe_model_st {β ρ γ δ : Type} (pmodel : Nat) (h : Heap β ρ γ δ) :
    Except String (Nat × Nat) × Heap β ρ γ δ :=
  let model := (h.objs pmodel).getD {}
  match model.rum_structure with
  | some (PyVal.list rs) =>
      let bs := model.boosters.getD []
      let pa := (h.alloc {}).1
      let h1 := (h.alloc {}).2
      let ps := (h1.alloc {}).1
      let h2 := (h1.alloc {}).2
      let h3 := h2.set pa (fun o => { o with boosters := some (idxMod2 0 bs) })
      let h4 := h3.set pa (fun o => { o with rum_structure := some (PyVal.list (idxMod2 0 rs)) })
      let h5 := h4.set pa (fun o => { o with num_classes := model.num_classes })
      let h6 := h5.set pa (fun o => { o with device := model.device })
      let h7 := h6.set pa (fun o => { o with nests := model.nests })
      let h8 := h7.set pa (fun o => { o with alphas := model.alphas })
      let h9 := h8.set ps (fun o => { o with boosters := some (idxMod2 1 bs) })
      let h10 := h9.set ps (fun o => { o with rum_structure := some (PyVal.list (idxMod2 1 rs)) })
      let h11 := h10.set ps (fun o => { o with num_classes := model.num_classes })
      let h12 := h11.set ps (fun o => { o with device := model.device })
      let h13 := h12.set ps (fun o => { o with nests := model.nests })
      let h14 := h13.set ps (fun o => { o with alphas := model.alphas })
      (.ok (pa, ps), h14)
  | _ =>
      (.error "Please add a rum_structure to your model by setting model.rum_structure. A rum_structure must be a list of 2*n_alt dictionaries in this function", h)

/-- The state of numpy's process-wide legacy random generator, modelled
abstractly: an entropy stream (draw position ↦ raw draw) and a cursor.
The concrete Mersenne-Twister stream is external to this module, so
theorems quantify over the seeding function `g`. -/
structure RngState where
  stream : Nat → Nat
  pos : Nat

/-- `np.random.seed(seed)`: resets the global generator to a state fully
determined by the seed; `g` is the (external) seeding algorithm mapping a
seed to an entropy stream. -/
def npSeed (g : Nat → Nat → Nat) (seed : Nat) : RngState :=
  { stream := g seed, pos := 0 }

/-- `np.random.choice(idx, size := n, replace := True)`: draws `n`
independent uniform picks from the array `idx` and advances the generator
cursor.  Each raw draw is reduced mod `idx.length` to index the array. -/
def npChoice (idx : List Int) (n : Nat) (s : RngState) : List Int × RngState :=
  ((List.range n).map (fun i => idx.getD (s.stream (s.pos + i) % idx.length) 0),
   { stream := s.stream, pos := s.pos + n })

/-- `np.setdiff1d(ar1, ar2)`: the sorted unique values of `ar1` that are
not in `ar2` (sortedness plus uniqueness plus membership determine the
result list uniquely, so any correct sort models numpy's). -/
def setdiff1d (ar1 ar2 : List Int) : List Int :=
  List.insertionSort (· ≤ ·) ((ar1.filter (fun x => x ∉ ar2)).dedup)

/-- The slice of the pandas `DataFrame` that `bootstrap` inspects directly:
its row-identifier index (`dataset.index`, whose length is
`dataset.shape[0]`).  Column contents are consumed only through
`lgb.Dataset` and `rum_train`, which are opaque (see `bootstrapLoop`). -/
structure DataFrame where
  index : List Int

/-- One iteration's resampling (post_process.py, lines 86–87):
`ids = np.random.choice(dataset.index, size=N, replace=True)` followed by
`ids2 = np.setdiff1d(dataset.index, ids)`. -/
def bootstrapResample (idx : List Int) (N : Nat) (s : RngState) :
    (List Int × List Int) × RngState :=
  let ids := (npChoice idx N s).1
  ((ids, setdiff1d idx ids), (npChoice idx N s).2)

/-- The sequence of per-iteration pairs `(ids, ids2)` drawn by the `for`
loop of `bootstrap`, one entry per iteration, in iteration order. -/
def resampleTrace (idx : List Int) (N : Nat) : Nat → RngState → List (List Int × List Int)
  | 0, _ => []
  | n + 1, s =>
    (bootstrapResample idx N s).1 :: resampleTrace idx N n (bootstrapResample idx N s).2

/-- The loop of `bootstrap` (post_process.py, lines 85–102).  The external
pipeline of one iteration — `df_train = dataset.loc[ids]`,
`df_test = dataset.loc[ids2]`, the two `lgb.Dataset` wrappers and the call
`rum_train(dataset_train, model_specification, valid_sets=[valid_set])` —
is opaque to this module and is modelled by the parameter `rum_train`,
which receives the two identifier lists that determine it (the dataset and
the specification are fixed throughout the call) and either returns a
trained model (`.ok`) or raises (`.error`).  A raised error abandons the
loop and the local `models` list is never returned. -/
def bootstrapLoop {E M : Type} (idx : List Int) (N : Nat)
    (rum_train : List Int → List Int → Except E M) :
    Nat → RngState → Except E (List M)
  | 0, _ => .ok []
  | n + 1, s =>
    match rum_train (bootstrapResample idx N s).1.1 (bootstrapResample idx N s).1.2 with
    | .error e => .error e
    | .ok m =>
        (bootstrapLoop idx N rum_train n (bootstrapResample idx N s).2).map
          (fun ms => m :: ms)

/-- Embedding of `bootstrap` (post_process.py, lines 55–104).  `σ` is the
state of the process-wide numpy generator when `bootstrap` is entered;
`np.random.seed(seed)` (line 81) replaces it before the loop, and
`N = dataset.shape[0]` (line 83). -/
def bootstrap {E M : Type} (dataset : DataFrame) (num_it : Nat) (seed : Nat)
    (g : Nat → Nat → Nat) (rum_train : List Int → List Int → Except E M)
    (σ : RngState) : Except E (List M) :=
  bootstrapLoop dataset.index dataset.index.length rum_train num_it (npSeed g seed)

/-- The resamples drawn by a `bootstrap` invocation: `np.random.seed` runs
once, before the loop, so the trace starts from `npSeed g seed` whatever
the generator state `σ` at entry was. -/
def bootstrapTrace (dataset : DataFrame) (num_it : Nat) (seed : Nat)
    (g : Nat → Nat → Nat) (σ : RngState) : List (List Int × List Int) :=
  resampleTrace dataset.index dataset.index.length num_it (npSeed g seed)

/-- Biogeme's `Beta(name, value, lowerbound, upperbound, status)` parameter
placeholder, modelled by its five constructor arguments (`None` bounds are
`none`). -/
structure Beta where
  name : String
  value : Int
  lowerbound : Option Int
  upperbound : Option Int
  status : Nat
  deriving DecidableEq

/-- The attributes of a trained model that `assist_model_spec` reads:
the class count and the per-utility `boost_from_parameter_space` flags. -/
structure AssistModel where
  num_classes : Nat
  boost_from_parameter_space : List Bool

/-- The dict comprehension of post_process.py, line 121:
`{f"asc_{i}": Beta(f"asc_{i}", 0, None, None, 0) for i in range(model.num_classes - 1)}`,
as an ordered association list. -/
def mkAscs (num_classes : Nat) : List (String × Beta) :=
  (List.range (num_classes - 1)).map
    (fun i => ("asc_" ++ toString i,
               { name := "asc_" ++ toString i, value := 0,
                 lowerbound := none, upperbound := none, status := 0 }))

/-- Embedding of `assist_model_spec` (post_process.py, lines 106–129).
`weights_to_plot_v2` lives in `rumboost/utility_plotting.py`, outside the
given fragment, and is modelled by a parameter returning its mapping
(utility index ↦ feature name ↦ tree information of some opaque type `τ`).
The double loop tests `model.boost_from_parameter_space[int(i)]` and does
`pass` in both branches, so it computes only units; the function body ends
without a `return` statement, which in Python yields `None` — hence the
result is `none`, never a specification dictionary. -/
def assist_model_spec {τ : Type} (model : AssistModel)
    (weights_to_plot_v2 : AssistModel → List (Nat × List (String × τ))) :
    Option (List (String × Beta)) :=
  let ascs := mkAscs model.num_classes
  let weights := weights_to_plot_v2 model
  let loop := weights.map (fun iw =>
    iw.2.map (fun _ =>
      if model.boost_from_parameter_space.getD iw.1 false then () else ()))
  let _ := ascs
  let _ := loop
  none

/-! Concrete inputs used by the witness theorems. -/

/-- A concrete functional-effect model with four boosters and four
structural descriptors. -/
def exModel : RUMBoost Nat Nat Nat Nat :=
  { boosters := some [0, 1, 2, 3]
    rum_structure := some (PyVal.list [10, 20, 30, 40])
    num_classes := some 2
    device := some "cpu"
    nests := some 7
    alphas := some 9 }

/-- A concrete model whose `rum_structure` is a mapping, not a list. -/
def exModelDict : RUMBoost Nat Nat Nat Nat :=
  { rum_structure := some (PyVal.dict [("u1", 5)]) }

/-- A one-object store holding `exModel` at reference 0. -/
def exHeap : Heap Nat Nat Nat Nat :=
  { objs := fun i => if i = 0 then some exModel else none, next := 1 }

/-- A concrete two-row dataset. -/
def exDataset : DataFrame := { index := [5, 7] }

/-- A concrete entropy-stream seeding function: seed 0 yields the all-zero
stream (so every pick lands on row 5), other seeds yield the identity. -/
def exG : Nat → Nat → Nat := fun seed j => if seed = 0 then 0 else j

/-- An arbitrary entry state of the global generator. -/
def exSigma : RngState := { stream := fun j => j + 3, pos := 11 }

/-- A concrete training call that simply records its two argument lists. -/
def exTrain : List Int → List Int → Except String (List Int × List Int) :=
  fun ids ids2 => .ok (ids, ids2)

/-- A concrete training call failing on its second invocation's resample
(`exG` seed 0 makes every iteration draw `[5, 5]`, so it fails at once). -/
def exTrainFail : List Int → List Int → Except String (List Int × List Int) :=
  fun ids _ => if ids = [5, 5] then .error "diverged" else .ok (ids, [])

/-- The even half of `split_fe_model exModel`. -/
def exAttributes : RUMBoost Nat Nat Nat Nat :=
  { boosters := some [0, 2]
    rum_structure := some (PyVal.list [10, 30])
    num_classes := some 2
    device := some "cpu"
    nests := some 7
    alphas := some 9 }

/-- The odd half of `split_fe_model exModel`. -/
def exSocio : RUMBoost Nat Nat Nat Nat :=
  { boosters := some [1, 3]
    rum_structure := some (PyVal.list [20, 40])
    num_classes := some 2
    device := some "cpu"
    nests := some 7
    alphas := some 9 }

/-- A concrete three-class model for the spec-extractor claims. -/
def exAssistModel : AssistModel := { num_classes := 3, boost_from_parameter_space := [true, false] }

/-! Theorems. -/

theorem enumFrom_filter_mod2 {α : Type} (l : List α) : ∀ k : Nat,
    (((List.enumFrom k l).filter (fun p => p.1 % 2 == k % 2)).map (·.2)
        = evens l)
    ∧ (((List.enumFrom k l).filter (fun p => p.1 % 2 == (k + 1) % 2)).map (·.2)
        = odds l) := by
  induction l with
  | nil => intro k; simp [evens, odds]
  | cons x xs ih =>
    intro k
    have h1 : (k % 2 == k % 2) = true := by simp
    have h2 : (k % 2 == (k + 1) % 2) = false := by
      simp only [beq_eq_false_iff_ne, ne_eq]
      omega
    have e1 : (k + 1 + 1) % 2 = k % 2 := by omega
    constructor
    · simp only [List.enumFrom_cons, List.filter_cons, h1, if_true,
        List.map_cons, evens]
      have := (ih (k + 1)).2
      rw [e1] at this
      rw [this]
    · simp only [List.enumFrom_cons, List.filter_cons, h2, if_false, odds]
      exact (ih (k + 1)).1

theorem idxMod2_zero_eq_evens {α : Type} (l : List α) :
    idxMod2 0 l = evens l := by
  have := (enumFrom_filter_mod2 l 0).1
  simpa [idxMod2, List.enum] using this

theorem idxMod2_one_eq_odds {α : Type} (l : List α) :
    idxMod2 1 l = odds l := by
  have := (enumFrom_filter_mod2 l 0).2
  simpa [idxMod2, List.enum] using this

theorem interleave_evens_odds {α : Type} (l : List α) :
    interleave (evens l) (odds l) = l := by
  induction l with
  | nil => simp [evens, odds, interleave]
  | cons x xs ih =>
    simp only [evens, odds, interleave]
    rw [ih]

theorem interleave_idxMod2 {α : Type} (l : List α) :
    interleave (idxMod2 0 l) (idxMod2 1 l) = l := by
  rw [idxMod2_zero_eq_evens, idxMod2_one_eq_odds, interleave_evens_odds]

theorem length_evens_odds {α : Type} (l : List α) :
    (evens l).length = (l.length + 1) / 2 ∧ (odds l).length = l.length / 2 := by
  induction l with
  | nil => simp [evens, odds]
  | cons x xs ih =>
    obtain ⟨h1, h2⟩ := ih
    simp only [evens, odds, List.length_cons]
    exact ⟨by omega, by omega⟩

theorem mem_resampleTrace {idx : List Int} {N : Nat}
    {p : List Int × List Int} : ∀ (n : Nat) (s : RngState),
    p ∈ resampleTrace idx N n s →
    ∃ s0 : RngState, p = (bootstrapResample idx N s0).1 := by
  intro n
  induction n with
  | zero => intro s h; simp [resampleTrace] at h
  | succ n ih =>
    intro s h
    simp only [resampleTrace, List.mem_cons] at h
    rcases h with h | h
    · exact ⟨s, h⟩
    · exact ih _ h

theorem length_npChoice (idx : List Int) (n : Nat) (s : RngState) :
    (npChoice idx n s).1.length = n := by
  simp [npChoice]

theorem mem_setdiff1d {ar1 ar2 : List Int} {x : Int} :
    x ∈ setdiff1d ar1 ar2 ↔ x ∈ ar1 ∧ x ∉ ar2 := by
  simp [setdiff1d, List.mem_insertionSort, List.mem_dedup, List.mem_filter]

theorem nodup_setdiff1d (ar1 ar2 : List Int) :
    (setdiff1d ar1 ar2).Nodup :=
  ((List.perm_insertionSort _ _).nodup_iff).mpr (List.nodup_dedup _)

theorem sorted_setdiff1d (ar1 ar2 : List Int) :
    List.Sorted (· < ·) (setdiff1d ar1 ar2) :=
  (List.sorted_insertionSort _ _).lt_of_le (nodup_setdiff1d ar1 ar2)

theorem bootstrapLoop_ok {E M : Type} (idx : List Int) (N : Nat)
    (rt : List Int → List Int → Except E M) :
    ∀ (n : Nat) (s : RngState) (ms : List M),
    bootstrapLoop idx N rt n s = .ok ms →
    ms.length = n ∧
    ∀ (i : Nat) (p : List Int × List Int) (m : M),
      (resampleTrace idx N n s).get? i = some p → ms.get? i = some m →
      rt p.1 p.2 = .ok m := by
  intro n
  induction n with
  | zero =>
    intro s ms h
    simp only [bootstrapLoop, Except.ok.injEq] at h
    subst h
    exact ⟨rfl, by intro i p m hp hm; simp [resampleTrace] at hp⟩
  | succ n ih =>
    intro s ms h
    simp only [bootstrapLoop] at h
    cases hrt : rt (bootstrapResample idx N s).1.1 (bootstrapResample idx N s).1.2 with
    | error e => rw [hrt] at h; simp at h
    | ok m =>
      rw [hrt] at h
      cases hloop : bootstrapLoop idx N rt n (bootstrapResample idx N s).2 with
      | error e => rw [hloop] at h; simp [Except.map] at h
      | ok ms0 =>
        rw [hloop] at h
        simp only [Except.map, Except.ok.injEq] at h
        subst h
        obtain ⟨hlen, hpt⟩ := ih (bootstrapResample idx N s).2 ms0 hloop
        refine ⟨by simp [hlen], ?_⟩
        intro i p m0 hp hm
        cases i with
        | zero =>
          simp only [resampleTrace, List.get?_cons_zero, Option.some.injEq] at hp hm
          rw [← hp, ← hm]
          exact hrt
        | succ i =>
          simp only [resampleTrace, List.get?_cons_succ] at hp hm
          exact hpt i p m0 hp hm

theorem bootstrapLoop_error {E M : Type} (idx : List Int) (N : Nat)
    (rt : List Int → List Int → Except E M) :
    ∀ (k n : Nat) (s : RngState) (p : List Int × List Int) (e : E),
    (resampleTrace idx N n s).get? k = some p →
    (∀ (i : Nat) (q : List Int × List Int), i < k →
        (resampleTrace idx N n s).get? i = some q →
        ∃ m, rt q.1 q.2 = Except.ok m) →
    rt p.1 p.2 = .error e →
    bootstrapLoop idx N rt n s = .error e := by
  intro k
  induction k with
  | zero =>
    intro n s p e hp _ hfail
    cases n with
    | zero => simp [resampleTrace] at hp
    | succ n =>
      simp only [resampleTrace, List.get?_cons_zero, Option.some.injEq] at hp
      subst hp
      simp only [bootstrapLoop, hfail]
  | succ k ih =>
    intro n s p e hp hbefore hfail
    cases n with
    | zero => simp [resampleTrace] at hp
    | succ n =>
      obtain ⟨m, hm⟩ := hbefore 0 (bootstrapResample idx N s).1 (Nat.succ_pos k)
        (by simp [resampleTrace])
      simp only [resampleTrace, List.get?_cons_succ] at hp
      have hrec := ih n (bootstrapResample idx N s).2 p e hp
        (fun i q hik hq => hbefore (i + 1) q (by omega)
          (by simpa [resampleTrace] using hq))
        hfail
      simp only [bootstrapLoop, hm, hrec, Except.map]

/-- Claim C1: in every iteration of `bootstrap(dataset,
model_specification, num_it, seed)`, the resampled training identifier
multiset `ids` has size equal to the original dataset's row count, and the
held-out complement `ids2` contains exactly those original row identifiers
drawn zero times in that iteration's resample, with each such identifier
appearing once, in increasing order (strict sortedness gives both at
once). -/
theorem claim_C1_resample_size_and_complement
    (dataset : DataFrame) (num_it seed : Nat) (g : Nat → Nat → Nat)
    (σ : RngState) (p : List Int × List Int)
    (hp : p ∈ bootstrapTrace dataset num_it seed g σ) :
    p.1.length = dataset.index.length
    ∧ (∀ x : Int, x ∈ p.2 ↔ x ∈ dataset.index ∧ x ∉ p.1)
    ∧ List.Sorted (· < ·) p.2 := by
  obtain ⟨s0, rfl⟩ := mem_resampleTrace _ _ hp
  refine ⟨?_, ?_, ?_⟩
  · simpa [bootstrapResample] using
      length_npChoice dataset.index dataset.index.length s0
  · intro x
    simp only [bootstrapResample]
    exact mem_setdiff1d
  · simpa [bootstrapResample] using
      sorted_setdiff1d dataset.index (npChoice dataset.index dataset.index.length s0).1

theorem claim_C1_witness :
    (([5, 5], [7]) : List Int × List Int) ∈ bootstrapTrace exDataset 1 0 exG exSigma
    ∧ ((([5, 5], [7]) : List Int × List Int).1.length = exDataset.index.length
      ∧ (∀ x : Int, x ∈ (([5, 5], [7]) : List Int × List Int).2 ↔
          x ∈ exDataset.index ∧ x ∉ (([5, 5], [7]) : List Int × List Int).1)
      ∧ List.Sorted (· < ·) (([5, 5], [7]) : List Int × List Int).2) :=
  ⟨by decide,
   claim_C1_resample_size_and_complement exDataset 1 0 exG exSigma
     ([5, 5], [7]) (by decide)⟩

/-- Claim C2: whenever `bootstrap` invoked with `num_it = k` returns (no
iteration raised), the returned sequence holds exactly `k` trained models,
one per iteration, in iteration order: the model at position `i` is the
one the training call produced from iteration `i`'s resample. -/
theorem claim_C2_one_model_per_iteration {E M : Type} (dataset : DataFrame)
    (num_it seed : Nat) (g : Nat → Nat → Nat)
    (rum_train : List Int → List Int → Except E M) (σ : RngState)
    (ms : List M)
    (h : bootstrap dataset num_it seed g rum_train σ = .ok ms) :
    ms.length = num_it
    ∧ ∀ (i : Nat) (p : List Int × List Int) (m : M),
        (bootstrapTrace dataset num_it seed g σ).get? i = some p →
        ms.get? i = some m → rum_train p.1 p.2 = .ok m := by
  have hres := bootstrapLoop_ok dataset.index dataset.index.length rum_train
    num_it (npSeed g seed) ms (by simpa [bootstrap] using h)
  simpa [bootstrapTrace] using hres

theorem claim_C2_witness :
    ([([5, 5], [7]), ([5, 5], [7])] : List (List Int × List Int)).length = 2
    ∧ exTrain [5, 5] [7] = Except.ok ([5, 5], [7]) :=
  have h := claim_C2_one_model_per_iteration exDataset 2 0 exG exTrain exSigma
    [([5, 5], [7]), ([5, 5], [7])] rfl
  ⟨h.1, h.2 0 ([5, 5], [7]) ([5, 5], [7]) (by decide) (by decide)⟩

/-- Claim C3: `bootstrap` is deterministic in its resampling: the random
source is seeded exactly once before the loop, so whatever the state of
the process-wide generator at entry (`σ₁` vs `σ₂`), two invocations with
identical inputs draw bit-identical sequences of resampled-row-identifier
sets across all iterations. -/
theorem claim_C3_resampling_deterministic (dataset : DataFrame)
    (num_it seed : Nat) (g : Nat → Nat → Nat) (σ₁ σ₂ : RngState) :
    bootstrapTrace dataset num_it seed g σ₁
      = bootstrapTrace dataset num_it seed g σ₂ := rfl

/-- Claim C4: for a model whose booster and structural descriptor lists
both have even length `2 * n`, `split_fe_model` yields two models with
exactly `n` boosters and `n` descriptors each — the attributes result the
even-indexed entries, the socio-economic result the odd-indexed entries,
in original relative order — so interleaving them elementwise reconstructs
the original sequences. -/
theorem claim_C4_even_odd_split {β ρ γ δ : Type} (model : RUMBoost β ρ γ δ)
    (bs : List β) (rs : List ρ) (n : Nat)
    (hb : model.boosters = some bs)
    (hr : model.rum_structure = some (PyVal.list rs))
    (hbl : bs.length = 2 * n) (hrl : rs.length = 2 * n) :
    ∃ (am sm : RUMBoost β ρ γ δ) (ba bsoc : List β) (ra rsoc : List ρ),
      split_fe_model model = .ok (am, sm)
      ∧ am.boosters = some ba ∧ sm.boosters = some bsoc
      ∧ am.rum_structure = some (PyVal.list ra)
      ∧ sm.rum_structure = some (PyVal.list rsoc)
      ∧ ba.length = n ∧ bsoc.length = n ∧ ra.length = n ∧ rsoc.length = n
      ∧ interleave ba bsoc = bs ∧ interleave ra rsoc = rs := by
  refine ⟨{ boosters := some (idxMod2 0 bs)
            rum_structure := some (PyVal.list (idxMod2 0 rs))
            num_classes := model.num_classes
            device := model.device
            nests := model.nests
            alphas := model.alphas },
          { boosters := some (idxMod2 1 bs)
            rum_structure := some (PyVal.list (idxMod2 1 rs))
            num_classes := model.num_classes
            device := model.device
            nests := model.nests
            alphas := model.alphas },
          idxMod2 0 bs, idxMod2 1 bs, idxMod2 0 rs, idxMod2 1 rs,
    ?_, rfl, rfl, rfl, rfl, ?_, ?_, ?_, ?_,
    interleave_idxMod2 bs, interleave_idxMod2 rs⟩
  · simp [split_fe_model, hr, hb]
  · rw [idxMod2_zero_eq_evens]
    have := (length_evens_odds bs).1
    omega
  · rw [idxMod2_one_eq_odds]
    have := (length_evens_odds bs).2
    omega
  · rw [idxMod2_zero_eq_evens]
    have := (length_evens_odds rs).1
    omega
  · rw [idxMod2_one_eq_odds]
    have := (length_evens_odds rs).2
    omega

theorem claim_C4_witness :
    exModel.boosters = some [0, 1, 2, 3]
    ∧ exModel.rum_structure = some (PyVal.list [10, 20, 30, 40])
    ∧ ([0, 1, 2, 3] : List Nat).length = 2 * 2
    ∧ (∃ (am sm : RUMBoost Nat Nat Nat Nat) (ba bsoc ra rsoc : List Nat),
        split_fe_model exModel = .ok (am, sm)
        ∧ am.boosters = some ba ∧ sm.boosters = some bsoc
        ∧ am.rum_structure = some (PyVal.list ra)
        ∧ sm.rum_structure = some (PyVal.list rsoc)
        ∧ ba.length = 2 ∧ bsoc.length = 2 ∧ ra.length = 2 ∧ rsoc.length = 2
        ∧ interleave ba bsoc = [0, 1, 2, 3] ∧ interleave ra rsoc = [10, 20, 30, 40]) :=
  ⟨rfl, rfl, rfl,
   claim_C4_even_odd_split exModel [0, 1, 2, 3] [10, 20, 30, 40] 2 rfl rfl rfl rfl⟩

/-- Claim C5: `split_fe_model` raises its configuration `ValueError` if
and only if the model's `rum_structure` is not a list (in particular it
rejects a mapping and a scalar); when it is a list the error is not
raised, and this is the only validated precondition. -/
theorem claim_C5_error_iff_not_list {β ρ γ δ : Type}
    (model : RUMBoost β ρ γ δ) (st : PyVal ρ)
    (h : model.rum_structure = some st) :
    (∃ e, split_fe_model model = .error e) ↔ st.isList = false := by
  cases st with
  | list rs => simp [split_fe_model, h, PyVal.isList]
  | dict d => simp [split_fe_model, h, PyVal.isList]
  | scalar s => simp [split_fe_model, h, PyVal.isList]

theorem claim_C5_witness :
    exModelDict.rum_structure = some (PyVal.dict [("u1", 5)])
    ∧ ((∃ e, split_fe_model exModelDict = .error e)
        ↔ (PyVal.dict [("u1", 5)] : PyVal Nat).isList = false) :=
  ⟨rfl, claim_C5_error_iff_not_list exModelDict (PyVal.dict [("u1", 5)]) rfl⟩

/-- Claim C6: both models returned by `split_fe_model` carry the source
model's class count, device tag, nesting structure and scaling factors
with the very same values, and no field beyond the six assigned ones is
populated on either result (`extra` is empty: any further attribute of the
source object is dropped). -/
theorem claim_C6_shared_fields_no_extra {β ρ γ δ : Type}
    (model am sm : RUMBoost β ρ γ δ)
    (h : split_fe_model model = .ok (am, sm)) :
    am.num_classes = model.num_classes ∧ am.device = model.device
    ∧ am.nests = model.nests ∧ am.alphas = model.alphas
    ∧ sm.num_classes = model.num_classes ∧ sm.device = model.device
    ∧ sm.nests = model.nests ∧ sm.alphas = model.alphas
    ∧ am.extra = [] ∧ sm.extra = [] := by
  cases hst : model.rum_structure with
  | none => simp [split_fe_model, hst] at h
  | some st =>
    cases st with
    | list rs =>
      simp only [split_fe_model, hst, Except.ok.injEq, Prod.mk.injEq] at h
      obtain ⟨h1, h2⟩ := h
      subst h1
      subst h2
      simp
    | dict d => simp [split_fe_model, hst] at h
    | scalar s => simp [split_fe_model, hst] at h

theorem claim_C6_witness :
    split_fe_model exModel = .ok (exAttributes, exSocio)
    ∧ (exAttributes.num_classes = exModel.num_classes
      ∧ exAttributes.device = exModel.device
      ∧ exAttributes.nests = exModel.nests
      ∧ exAttributes.alphas = exModel.alphas
      ∧ exSocio.num_classes = exModel.num_classes
      ∧ exSocio.device = exModel.device
      ∧ exSocio.nests = exModel.nests
      ∧ exSocio.alphas = exModel.alphas
      ∧ exAttributes.extra = [] ∧ exSocio.extra = []) :=
  ⟨rfl, claim_C6_shared_fields_no_extra exModel exAttributes exSocio rfl⟩

/-- Claim C7: `split_fe_model` has no side effect on its input: running
the state-passing embedding over any object store leaves the source model
object — hence every one of its fields — exactly as it was, whether the
split succeeds or raises. -/
theorem claim_C7_source_model_unchanged {β ρ γ δ : Type} (pmodel : Nat)
    (h : Heap β ρ γ δ) (hlive : pmodel < h.next) :
    ((split_fe_model_st pmodel h).2).objs pmodel = h.objs pmodel := by
  have hne1 : ¬ pmodel = h.next := by omega
  have hne2 : ¬ pmodel = h.next + 1 := by omega
  cases hst : ((h.objs pmodel).getD {}).rum_structure with
  | none => simp [split_fe_model_st, hst]
  | some st =>
    cases st with
    | list rs => simp [split_fe_model_st, hst, Heap.set, Heap.alloc, hne1, hne2]
    | dict d => simp [split_fe_model_st, hst]
    | scalar s => simp [split_fe_model_st, hst]

theorem claim_C7_witness :
    0 < exHeap.next
    ∧ ((split_fe_model_st 0 exHeap).2).objs 0 = exHeap.objs 0 :=
  ⟨by decide, claim_C7_source_model_unchanged 0 exHeap (by decide)⟩

/-- Claim C8: if the external training call raises on iteration `k` (all
earlier iterations having trained successfully), the error propagates
uncaught out of `bootstrap` — the result is that very error, and no
partial list of the models trained before `k` is returned. -/
theorem claim_C8_training_error_propagates {E M : Type} (dataset : DataFrame)
    (num_it seed : Nat) (g : Nat → Nat → Nat)
    (rum_train : List Int → List Int → Except E M) (σ : RngState)
    (k : Nat) (p : List Int × List Int) (e : E)
    (hk : (bootstrapTrace dataset num_it seed g σ).get? k = some p)
    (hbefore : ∀ (i : Nat) (q : List Int × List Int), i < k →
        (bootstrapTrace dataset num_it seed g σ).get? i = some q →
        ∃ m, rum_train q.1 q.2 = Except.ok m)
    (hfail : rum_train p.1 p.2 = .error e) :
    bootstrap dataset num_it seed g rum_train σ = .error e := by
  have hres := bootstrapLoop_error dataset.index dataset.index.length rum_train
    k num_it (npSeed g seed) p e (by simpa [bootstrapTrace] using hk)
    (by simpa [bootstrapTrace] using hbefore) hfail
  simpa [bootstrap] using hres

theorem claim_C8_witness :
    bootstrap exDataset 2 0 exG exTrainFail exSigma = Except.error "diverged" :=
  claim_C8_training_error_propagates exDataset 2 0 exG exTrainFail exSigma
    0 ([5, 5], [7]) "diverged" (by decide)
    (fun i q hik _ => absurd hik (Nat.not_lt_zero i)) rfl

/-- Claim C9: the spec extractor builds exactly `num_classes - 1`
placeholder parameters, the entry at position `i` being keyed `asc_i` and
holding a `Beta` named `asc_i`, initialised to value 0, with no bounds. -/
theorem claim_C9_asc_placeholders (model : AssistModel) :
    (mkAscs model.num_classes).length = model.num_classes - 1
    ∧ ∀ i : Nat, i < model.num_classes - 1 →
        (mkAscs model.num_classes).get? i
          = some ("asc_" ++ toString i,
              { name := "asc_" ++ toString i, value := 0,
                lowerbound := none, upperbound := none, status := 0 }) := by
  constructor
  · simp [mkAscs]
  · intro i hi
    simp [mkAscs, List.get?_eq_getElem?, List.getElem?_map, List.getElem?_range, hi]

theorem claim_C9_witness :
    (mkAscs exAssistModel.num_classes).length = exAssistModel.num_classes - 1
    ∧ (mkAscs exAssistModel.num_classes).get? 1
        = some ("asc_" ++ toString 1,
            { name := "asc_" ++ toString 1, value := 0,
              lowerbound := none, upperbound := none, status := 0 }) :=
  ⟨(claim_C9_asc_placeholders exAssistModel).1,
   (claim_C9_asc_placeholders exAssistModel).2 1 (by decide)⟩

/-- Claim C10: for every input model (and whatever the weight-extraction
helper returns), `assist_model_spec` terminates without producing a value:
its body has no `return` statement and its weight-inspection loop passes
in both branches, so the call yields `None` rather than the specification
dictionary its docstring promises. -/
theorem claim_C10_returns_none {τ : Type} (model : AssistModel)
    (weights_to_plot_v2 : AssistModel → List (Nat × List (String × τ))) :
    assist_model_spec model weights_to_plot_v2 = none := rfl

end Rumboost
